import Mathlib

/-!
Verification of the Field Validation + Multi-Criteria Assessment core of the
New_Resu resume-screening system.

The Python code under test is dynamically typed, so candidate records are
embedded as a `PyVal` type mirroring Python's runtime values, with Python's
truthiness, `dict.get`, and `isinstance` checks made explicit.  The functions
`analyze_pds_background` and `calculate_score` are shallow embeddings of
`PDSScoringComparisonTest.analyze_pds_background` and
`PDSScoringComparisonTest.calculate_score` from
`temp_pds_scoring_comparison_test_20251103000250.py`.  The field validator and
the assessment engine proper live in modules that are only called, not
included, in the available sources; those are modelled from the specification
and marked as such in their doc comments.
-/

namespace NewResu

/-- A dynamic Python value: the shapes the analyzer inspects at runtime
(`None`, booleans, integers, strings, lists, dicts).  Dicts are insertion
ordered key/value lists with first-match lookup. -/
inductive PyVal where
  | none
  | bool (b : Bool)
  | int (n : Int)
  | str (s : String)
  | list (xs : List PyVal)
  | dict (kvs : List (String × PyVal))

/-- Python truthiness: `None`, `False`, `0`, `""`, `[]`, `{}` are falsy. -/
def truthy : PyVal → Bool
  | .none => false
  | .bool b => b
  | .int n => n != 0
  | .str s => s ≠ ""
  | .list xs => !xs.isEmpty
  | .dict kvs => !kvs.isEmpty

/-- Python `isinstance(v, dict)`. -/
def PyVal.isDict : PyVal → Bool
  | .dict _ => true
  | _ => false

/-- Python `isinstance(v, list)`. -/
def PyVal.isList : PyVal → Bool
  | .list _ => true
  | _ => false

/-- Python `isinstance(v, str)`. -/
def PyVal.isStr : PyVal → Bool
  | .str _ => true
  | _ => false

/-- First-match key lookup in a Python dict (Python dict keys are unique, so
first match is the only match). -/
def dlookup : List (String × PyVal) → String → Option PyVal
  | [], _ => Option.none
  | (k, v) :: rest, key => if k = key then some v else dlookup rest key

/-- Python `d.get(key, default)`. -/
def dget (d : List (String × PyVal)) (key : String) (dflt : PyVal) : PyVal :=
  (dlookup d key).getD dflt

/-- The `BackgroundProfile` produced by `analyze_pds_background`: the four
category buckets built from a candidate record. -/
structure BackgroundProfile where
  education_fields : List PyVal
  work_experience_areas : List PyVal
  training_areas : List PyVal
  key_skills : List PyVal

/-- The education levels visited by the analyzer, in source order
(`['college', 'graduate_studies', 'post_graduate']`). -/
def eduLevels : List String := ["college", "graduate_studies", "post_graduate"]

/-- Courses collected from one education level's value.  Mirrors: a list is
walked collecting `course['course']` of each dict entry whose `.get('course')`
is truthy; a single dict entry contributes its own truthy `course`; anything
else contributes nothing. -/
def eduCourses : PyVal → List PyVal
  | .list cs =>
      cs.flatMap (fun c =>
        match c with
        | .dict d => if truthy (dget d "course" .none) then [dget d "course" .none] else []
        | _ => [])
  | .dict d => if truthy (dget d "course" .none) then [dget d "course" .none] else []
  | _ => []

/-- Contribution of one education level of the `educational_background` dict.
Mirrors `if level in education and education[level]:`. -/
def eduLevelContrib (edu : List (String × PyVal)) (lvl : String) : List PyVal :=
  match dlookup edu lvl with
  | some v => if truthy v then eduCourses v else []
  | Option.none => []

/-- The full `education_fields` bucket.  Mirrors
`education = pds_data.get('educational_background', {})` followed by the
`isinstance(education, dict)` guard and the loop over the three levels. -/
def educationFields (pds : List (String × PyVal)) : List PyVal :=
  match dget pds "educational_background" (.dict []) with
  | .dict edu => eduLevels.flatMap (eduLevelContrib edu)
  | _ => []

/-- Contribution of one work-experience entry: its truthy `position_title`
followed by its truthy `department_office`; non-dict entries contribute
nothing. -/
def expContrib : PyVal → List PyVal
  | .dict e =>
      let position := dget e "position_title" (.str "")
      let office := dget e "department_office" (.str "")
      (if truthy position then [position] else []) ++
        (if truthy office then [office] else [])
  | _ => []

/-- Work areas collected from a work-experience list, in order. -/
def workAreasOfList (es : List PyVal) : List PyVal :=
  es.flatMap expContrib

/-- The full `work_experience_areas` bucket.  Mirrors
`work_experience = pds_data.get('work_experience', [])` plus the
`isinstance(work_experience, list)` guard and the appending loop. -/
def workExperienceAreas (pds : List (String × PyVal)) : List PyVal :=
  match dget pds "work_experience" (.list []) with
  | .list es => workAreasOfList es
  | _ => []

/-- Contribution of one training entry: its truthy `title`; non-dict entries
contribute nothing. -/
def trainContrib : PyVal → List PyVal
  | .dict t =>
      let title := dget t "title" (.str "")
      if truthy title then [title] else []
  | _ => []

/-- Training areas collected from a `learning_development` list, in order. -/
def trainAreasOfList (ts : List PyVal) : List PyVal :=
  ts.flatMap trainContrib

/-- The full `training_areas` bucket.  Mirrors
`learning_development = pds_data.get('learning_development', [])` plus the
`isinstance(..., list)` guard and the appending loop. -/
def trainingAreas (pds : List (String × PyVal)) : List PyVal :=
  match dget pds "learning_development" (.list []) with
  | .list ts => trainAreasOfList ts
  | _ => []

/-- Embedding of `PDSScoringComparisonTest.analyze_pds_background` (source
lines 133-176): the analysis dict with its four buckets.  `key_skills` is
initialized to `[]` and no statement in the function body ever appends to
it. -/
def analyze_pds_background (pds_data : List (String × PyVal)) : BackgroundProfile :=
  { education_fields := educationFields pds_data
    work_experience_areas := workExperienceAreas pds_data
    training_areas := trainingAreas pds_data
    key_skills := [] }

/-- The job posting row handed to `calculate_score`: the shape returned by
`get_job_posting_data` (source lines 87-95), whose requirement fields are
already coalesced to strings via `row[i] or ''`. -/
structure JobRow where
  position_title : String
  department_office : String
  education_requirements : String
  training_requirements : String
  experience_requirements : String
  eligibility_requirements : String

/-- The `lspu_job` dict built inside `calculate_score` (source lines 101-108)
from the job posting row. -/
def format_lspu_job (j : JobRow) : List (String × PyVal) :=
  [("position_title", .str j.position_title),
   ("department_office", .str j.department_office),
   ("education_requirements", .str j.education_requirements),
   ("training_requirements", .str j.training_requirements),
   ("experience_requirements", .str j.experience_requirements),
   ("eligibility_requirements", .str j.eligibility_requirements)]

/-- Embedding of `PDSScoringComparisonTest.calculate_score` (source lines
97-131).  The call to `assessment_engine.assess_candidate_for_lspu_job` is
abstracted as the `engine` argument; a Python exception raised anywhere in the
`try` block is an `Except.error` carrying `str(e)`.  On success the five
scores are read with `.get(..., 0)` and the raw result is kept under
`assessment_details`; on any exception the function catches it and returns the
all-zero dict with `error` set to `str(e)`.  The embedding is a total
function: no exception can escape to the caller. -/
def calculate_score
    (engine : PyVal → List (String × PyVal) → Except String (List (String × PyVal)))
    (pds_data : PyVal) (job_data : JobRow) : List (String × PyVal) :=
  match engine pds_data (format_lspu_job job_data) with
  | .ok a =>
      [("total_score", dget a "total_score" (.int 0)),
       ("education_score", dget a "education_score" (.int 0)),
       ("experience_score", dget a "experience_score" (.int 0)),
       ("training_score", dget a "training_score" (.int 0)),
       ("eligibility_score", dget a "eligibility_score" (.int 0)),
       ("assessment_details", .dict a)]
  | .error e =>
      [("total_score", .int 0),
       ("education_score", .int 0),
       ("experience_score", .int 0),
       ("training_score", .int 0),
       ("eligibility_score", .int 0),
       ("error", .str e)]

/-- Lower-case an ASCII letter (Python `str.lower` restricted to the ASCII
range the validator's keywords use). -/
def lowerChar (c : Char) : Char :=
  if 'A' ≤ c ∧ c ≤ 'Z' then Char.ofNat (c.toNat + 32) else c

/-- Strip leading and trailing spaces (Python `str.strip`). -/
def trimChars (cs : List Char) : List Char :=
  ((cs.dropWhile (· = ' ')).reverse.dropWhile (· = ' ')).reverse

/-- Split a character list on single spaces (Python `str.split(' ')`). -/
def splitOnSpace (cs : List Char) : List (List Char) :=
  match cs with
  | [] => [[]]
  | c :: rest =>
      let r := splitOnSpace rest
      if c = ' ' then [] :: r
      else (c :: r.headD []) :: r.tail

/-- Substring test (Python `pat in s`). -/
def infixIn (pat s : List Char) : Bool :=
  match s with
  | [] => pat.isEmpty
  | _ :: rest => pat.isPrefixOf s || infixIn pat rest

/-- A `YYYY-MM-DD` date shape. -/
def isDateShape (cs : List Char) : Bool :=
  match cs with
  | [y1, y2, y3, y4, '-', m1, m2, '-', d1, d2] =>
      [y1, y2, y3, y4, m1, m2, d1, d2].all Char.isDigit
  | _ => false

/-- An `HH:MM:SS` time-of-day shape. -/
def isTimeShape (cs : List Char) : Bool :=
  match cs with
  | [h1, h2, ':', m1, m2, ':', s1, s2] => [h1, h2, m1, m2, s1, s2].all Char.isDigit
  | _ => false

/-- A date-like fragment: `YYYY-MM-DD` with an optional ` HH:MM:SS` part. -/
def isDateLike (cs : List Char) : Bool :=
  isDateShape cs ||
    (match splitOnSpace cs with
     | [d, t] => isDateShape d && isTimeShape t
     | _ => false)

/-- A pure numeric or numeric-with-decimal fragment such as the rating
`85.50`. -/
def isNumericText (cs : List Char) : Bool :=
  !cs.isEmpty &&
    (cs.all Char.isDigit ||
      (match cs.dropWhile Char.isDigit with
       | '.' :: rest =>
           !(cs.takeWhile Char.isDigit).isEmpty && !rest.isEmpty && rest.all Char.isDigit
       | _ => false))

/-- A local phone-number shape: eleven digits starting with `09`. -/
def isPhoneShape (cs : List Char) : Bool :=
  cs.length = 11 && cs.all Char.isDigit && cs.take 2 = ['0', '9']

/-- Table-header and placeholder tokens rejected for every field kind. -/
def isPlaceholder (l : List Char) : Bool :=
  (["from", "to", "present", "rating"].map String.toList).contains l ||
    infixIn "inclusive dates".toList l

/-- Government agency abbreviations appearing in ID labels. -/
def agencyAbbrevs : List String :=
  ["sss", "tin", "gsis", "philhealth", "pagibig"]

/-- An `<AGENCY_ABBREV>: ...` label such as `SSS: 123456789` (input already
lower-cased). -/
def agencyLabeled (l : List Char) : Bool :=
  agencyAbbrevs.any (fun a => (a ++ ":").toList.isPrefixOf l)

/-- Indicative tokens a genuine eligibility phrase must contain. -/
def eligibilityIndicators : List String :=
  ["eligibility", "eligible", "professional", "cse", "career service",
   "licensure", "board", "certification"]

/-- The trimmed character-list form of a raw fragment. -/
def normFrag (text : String) : List Char :=
  trimChars text.toList

/-- The trimmed, lower-cased form of a raw fragment, for case-insensitive
keyword checks. -/
def lowerFrag (text : String) : List Char :=
  (trimChars text.toList).map lowerChar

/-- Modelled from the spec: the Field Validator `validate(kind, text)` of
spec sections 4.1, 4.2 and 8.  Its implementation
(`ImprovedPersonalDataSheetProcessor._is_valid_civil_service_eligibility`,
`_is_valid_reference_name`, `_is_valid_reference_data` in
`improved_pds_extractor.py`) is not among the available sources; only its test
`test_extraction_validation_20251102232843.py` is.  Rejection rules apply in
order, first match wins: date-like fragments, pure numeric fragments (except a
phone-shaped value for `reference_data`, which the spec's own test table and
the source test expect to be accepted), placeholder tokens, then the
kind-specific rules of spec section 4.2. -/
def validate (kind text : String) : Bool :=
  if isDateLike (normFrag text) then false
  else if isNumericText (normFrag text) ∧
      ¬(kind = "reference_data" ∧ isPhoneShape (normFrag text) = true) then false
  else if isPlaceholder (lowerFrag text) then false
  else if kind = "eligibility" then
    eligibilityIndicators.any (fun k => infixIn k.toList (lowerFrag text))
  else if kind = "reference_name" then
    if infixIn "government issued id".toList (lowerFrag text) then false
    else if agencyLabeled (lowerFrag text) then false
    else (splitOnSpace (normFrag text)).any (fun t => 2 ≤ (t.filter Char.isAlpha).length)
  else if kind = "reference_data" then
    if agencyAbbrevs.any (fun a => lowerFrag text = a.toList) then false
    else if "government issued id".toList.isPrefixOf (lowerFrag text) then false
    else if agencyLabeled (lowerFrag text) then false
    else isPhoneShape (normFrag text) ||
      (splitOnSpace (normFrag text)).any (fun t => 2 ≤ (t.filter Char.isAlpha).length)
  else false

/-- Normalize one character for keyword matching: letters and digits are
lower-cased, punctuation becomes a space. -/
def normChar (c : Char) : Char :=
  if c.isAlphanum then lowerChar c else ' '

/-- Normalized form of a text: lower-cased with punctuation stripped to
spaces. -/
def normText (s : String) : List Char :=
  s.toList.map normChar

/-- Keywords of a requirement string: the non-empty normalized tokens. -/
def reqKeywords (s : String) : List (List Char) :=
  (splitOnSpace (normText s)).filter (fun t => !t.isEmpty)

/-- Number of requirement keywords found (as a substring) inside some entry of
the candidate bucket. -/
def keywordHits (ks : List (List Char)) (bucket : List String) : Nat :=
  ks.countP (fun k => bucket.any (fun b => infixIn k (normText b)))

/-- Modelled from the spec: one category's sub-score (spec section 4.4,
steps 1-3).  The Scoring Engine (`assessment_engine.py`) is not among the
available sources.  An empty or whitespace-only requirement yields the full
neutral score 100; otherwise the score is the overlap ratio of requirement
keywords found in the bucket, mapped to a percentage.  Arithmetic is exact
rational arithmetic standing for the engine's full-precision floats. -/
def categoryScore (req : String) (bucket : List String) : ℚ :=
  if (reqKeywords req).isEmpty then 100
  else 100 * (keywordHits (reqKeywords req) bucket : ℚ) / ((reqKeywords req).length : ℚ)

/-- Fixed category weight for education (spec section 4.4, step 4: education
and experience weighted most heavily). -/
def wEdu : ℚ := 35 / 100

/-- Fixed category weight for experience. -/
def wExp : ℚ := 30 / 100

/-- Fixed category weight for training. -/
def wTrn : ℚ := 20 / 100

/-- Fixed category weight for eligibility. -/
def wElg : ℚ := 15 / 100

/-- Rounding to one decimal place (spec section 4.4, step 5). -/
def round1 (q : ℚ) : ℚ := (round (10 * q) : ℤ) / 10

/-- The candidate side consumed by the Scoring Engine: the three
`BackgroundProfile` buckets plus the validated eligibility strings. -/
structure CandidateView where
  education_fields : List String
  work_experience_areas : List String
  training_areas : List String
  civil_service_eligibility : List String

/-- The `AssessmentResult` of spec section 3: four sub-scores, the weighted
total, and an optional error annotation. -/
structure AssessmentResult where
  education_score : ℚ
  experience_score : ℚ
  training_score : ℚ
  eligibility_score : ℚ
  total_score : ℚ
  error : Option String

/-- Modelled from the spec: the Scoring Engine
`UniversityAssessmentEngine.assess_candidate_for_lspu_job`
(`assessment_engine.py`, not among the available sources), per spec
section 4.4: each category's sub-score is computed from the matching bucket
and requirement string, the total is the fixed weighted combination, and every
reported value is rounded to one decimal place. -/
def assess_candidate_for_lspu_job (c : CandidateView) (job : JobRow) : AssessmentResult :=
  let e := categoryScore job.education_requirements c.education_fields
  let x := categoryScore job.experience_requirements c.work_experience_areas
  let t := categoryScore job.training_requirements c.training_areas
  let g := categoryScore job.eligibility_requirements c.civil_service_eligibility
  let total := wEdu * e + wExp * x + wTrn * t + wElg * g
  { education_score := round1 e
    experience_score := round1 x
    training_score := round1 t
    eligibility_score := round1 g
    total_score := round1 total
    error := Option.none }

/-- String-valued equality test on a dynamic value, used to count occurrences
of a given collected text in a bucket. -/
def pyStrEq (v : PyVal) (s : String) : Bool :=
  match v with
  | .str t => t = s
  | _ => false

/-- Whether a source entry is a dict whose `key` field holds exactly the
string `s` (under the analyzer's `.get(key, '')` read). -/
def entryFieldIs (key s : String) : PyVal → Bool
  | .dict d => pyStrEq (dget d key (.str "")) s
  | _ => false

theorem mem_expContrib_truthy {v e : PyVal} (h : v ∈ expContrib e) : truthy v = true := by
  cases e with
  | dict d =>
      simp only [expContrib] at h
      rcases List.mem_append.mp h with h' | h' <;>
        [skip; skip] <;>
        · split at h'
          · next ht => rcases List.mem_singleton.mp h' with rfl; exact ht
          · cases h'
  | none => cases h
  | bool b => cases h
  | int n => cases h
  | str s => cases h
  | list xs => cases h

theorem mem_trainContrib_truthy {v e : PyVal} (h : v ∈ trainContrib e) : truthy v = true := by
  cases e with
  | dict d =>
      simp only [trainContrib] at h
      split at h
      · next ht => rcases List.mem_singleton.mp h with rfl; exact ht
      · cases h
  | none => cases h
  | bool b => cases h
  | int n => cases h
  | str s => cases h
  | list xs => cases h

theorem mem_eduCourses_truthy {v : PyVal} {w : PyVal} (h : v ∈ eduCourses w) : truthy v = true := by
  cases w with
  | list cs =>
      simp only [eduCourses] at h
      rcases List.mem_flatMap.mp h with ⟨c, _, hc⟩
      cases c <;> simp only at hc <;> try cases hc
      case dict d =>
        split at hc
        · next ht => rcases List.mem_singleton.mp hc with rfl; exact ht
        · cases hc
  | dict d =>
      simp only [eduCourses] at h
      split at h
      · next ht => rcases List.mem_singleton.mp h with rfl; exact ht
      · cases h
  | none => cases h
  | bool b => cases h
  | int n => cases h
  | str s => cases h

theorem mem_eduLevelContrib_truthy {v : PyVal} {edu : List (String × PyVal)} {lvl : String}
    (h : v ∈ eduLevelContrib edu lvl) : truthy v = true := by
  unfold eduLevelContrib at h
  split at h
  · split at h
    · exact mem_eduCourses_truthy h
    · cases h
  · cases h

/-- C9: the `key_skills` bucket of the profile returned by
`analyze_pds_background` is the empty list for every candidate record: the
function initializes it to `[]` and no code path appends to it. -/
theorem key_skills_always_empty :
    ∀ pds_data : List (String × PyVal), (analyze_pds_background pds_data).key_skills = [] :=
  fun _ => rfl

/-- C10 (amended): every element of every bucket returned by
`analyze_pds_background` is a truthy Python value — in particular, every
element that is a string is a non-empty string, so a `course`,
`position_title`, `department_office` or `title` equal to the empty string
contributes nothing (the analyzer filters on truthiness, not key presence).
The original claim's stronger form, that every element is a non-empty string,
fails: a truthy non-string field value (for example an integer) is collected
as-is. -/
theorem bucket_elements_truthy :
    ∀ (pds_data : List (String × PyVal)) (v : PyVal),
      (v ∈ (analyze_pds_background pds_data).education_fields ∨
        v ∈ (analyze_pds_background pds_data).work_experience_areas ∨
        v ∈ (analyze_pds_background pds_data).training_areas ∨
        v ∈ (analyze_pds_background pds_data).key_skills) →
      truthy v = true := by
  intro pds v h
  rcases h with h | h | h | h
  · simp only [analyze_pds_background, educationFields] at h
    split at h
    · rcases List.mem_flatMap.mp h with ⟨lvl, _, hc⟩
      exact mem_eduLevelContrib_truthy hc
    · cases h
  · simp only [analyze_pds_background, workExperienceAreas] at h
    split at h
    · rcases List.mem_flatMap.mp h with ⟨e, _, hc⟩
      exact mem_expContrib_truthy hc
    · cases h
  · simp only [analyze_pds_background, trainingAreas] at h
    split at h
    · rcases List.mem_flatMap.mp h with ⟨t, _, hc⟩
      exact mem_trainContrib_truthy hc
    · cases h
  · cases h

/-- Witness for C10's amended theorem at a concrete record. -/
theorem bucket_elements_truthy_witness :
    truthy (PyVal.str "HR Officer") = true :=
  bucket_elements_truthy
    [("work_experience", PyVal.list [PyVal.dict [("position_title", PyVal.str "HR Officer")]])]
    (PyVal.str "HR Officer")
    (Or.inr (Or.inl (List.Mem.head _)))

/-- Counterexample to C10 as stated: a work-experience entry whose
`position_title` is the integer `5` (truthy, but not a string) is collected
into the bucket unchanged, so bucket elements need not be non-empty
strings. -/
theorem bucket_nonstring_element_counterexample :
    (analyze_pds_background
        [("work_experience", PyVal.list [PyVal.dict [("position_title", PyVal.int 5)]])]).work_experience_areas
      = [PyVal.int 5] ∧ PyVal.isStr (PyVal.int 5) = false :=
  ⟨rfl, rfl⟩

theorem sublist_flatMap_of_mem {α β : Type} (f : α → List β) {e : α} {es : List α}
    (h : e ∈ es) : (f e).Sublist (es.flatMap f) := by
  induction es with
  | nil => cases h
  | cons a as ih =>
      rw [List.flatMap_cons]
      rcases List.mem_cons.mp h with rfl | h'
      · exact List.sublist_append_left _ _
      · exact (ih h').trans (List.sublist_append_right _ _)

/-- C3: for every work-experience entry that is a dict with a truthy
`position_title` and a truthy `department_office`, both values appear in the
`work_experience_areas` bucket as two independent consecutive elements (the
pair is a sublist of the bucket, position first). -/
theorem work_position_and_office_both_collected :
    ∀ (pds_data : List (String × PyVal)) (es : List PyVal) (d : List (String × PyVal)),
      dget pds_data "work_experience" (PyVal.list []) = PyVal.list es →
      PyVal.dict d ∈ es →
      truthy (dget d "position_title" (PyVal.str "")) = true →
      truthy (dget d "department_office" (PyVal.str "")) = true →
      List.Sublist
        [dget d "position_title" (PyVal.str ""), dget d "department_office" (PyVal.str "")]
        (analyze_pds_background pds_data).work_experience_areas := by
  intro pds es d hw hm hp ho
  have hb : (analyze_pds_background pds).work_experience_areas = workAreasOfList es := by
    simp [analyze_pds_background, workExperienceAreas, hw]
  have hc : expContrib (PyVal.dict d) =
      [dget d "position_title" (PyVal.str ""), dget d "department_office" (PyVal.str "")] := by
    simp [expContrib, hp, ho]
  rw [hb, ← hc]
  exact sublist_flatMap_of_mem expContrib hm

/-- Witness for C3 at a concrete record with both fields populated. -/
theorem work_position_and_office_both_collected_witness :
    List.Sublist [PyVal.str "Administrative Aide", PyVal.str "Records Office"]
      (analyze_pds_background
        [("work_experience", PyVal.list
          [PyVal.dict [("position_title", PyVal.str "Administrative Aide"),
                       ("department_office", PyVal.str "Records Office")]])]).work_experience_areas :=
  work_position_and_office_both_collected
    [("work_experience", PyVal.list
      [PyVal.dict [("position_title", PyVal.str "Administrative Aide"),
                   ("department_office", PyVal.str "Records Office")]])]
    [PyVal.dict [("position_title", PyVal.str "Administrative Aide"),
                 ("department_office", PyVal.str "Records Office")]]
    [("position_title", PyVal.str "Administrative Aide"),
     ("department_office", PyVal.str "Records Office")]
    rfl (List.Mem.head _) (by decide) (by decide)

/-- C1 (amended): whenever the assessment-engine call inside
`calculate_score` raises — the abstracted `engine` returns `Except.error e`
with `e` standing for Python's `str(e)` — the wrapper catches it and returns
the result dict whose five scores are all `0` and whose `error` field equals
the exception's message; the embedding is a total function, so no exception
ever propagates to the caller.  The message equals `str(e)`; it is non-empty
exactly when the raised exception renders to a non-empty string, which holds
for the claim's example (a candidate record that is not a structured mapping
raises an `AttributeError` with a descriptive message) but not for every
conceivable exception. -/
theorem calculate_score_catches_engine_error :
    ∀ (engine : PyVal → List (String × PyVal) → Except String (List (String × PyVal)))
      (pds_data : PyVal) (job_data : JobRow) (e : String),
      engine pds_data (format_lspu_job job_data) = Except.error e →
      calculate_score engine pds_data job_data =
        [("total_score", PyVal.int 0),
         ("education_score", PyVal.int 0),
         ("experience_score", PyVal.int 0),
         ("training_score", PyVal.int 0),
         ("eligibility_score", PyVal.int 0),
         ("error", PyVal.str e)] := by
  intro engine pds job e h
  unfold calculate_score
  rw [h]

/-- Witness for C1's amended theorem: an engine that raises the way the
claim's example does (candidate record not a structured mapping). -/
theorem calculate_score_catches_engine_error_witness :
    calculate_score (fun _ _ => Except.error "list object has no attribute get")
      (PyVal.list []) (JobRow.mk "" "" "" "" "" "") =
      [("total_score", PyVal.int 0),
       ("education_score", PyVal.int 0),
       ("experience_score", PyVal.int 0),
       ("training_score", PyVal.int 0),
       ("eligibility_score", PyVal.int 0),
       ("error", PyVal.str "list object has no attribute get")] :=
  calculate_score_catches_engine_error
    (fun _ _ => Except.error "list object has no attribute get")
    (PyVal.list []) (JobRow.mk "" "" "" "" "" "") "list object has no attribute get" rfl

/-- Counterexample to C1 as stated: the wrapper stores `str(e)` verbatim, so
an exception whose string rendering is empty (Python `Exception()` renders to
`""`) yields an `error` field that is the empty string; the claim's "non-empty
string" is therefore not guaranteed for every exception. -/
theorem calculate_score_empty_message_counterexample :
    dget (calculate_score (fun _ _ => Except.error "") (PyVal.list [])
        (JobRow.mk "" "" "" "" "" "")) "error" (PyVal.int 0) = PyVal.str "" :=
  rfl

theorem workAreas_filter_dicts (es : List PyVal) :
    workAreasOfList (es.filter PyVal.isDict) = workAreasOfList es := by
  induction es with
  | nil => rfl
  | cons e es ih =>
      cases e <;> simp [workAreasOfList, expContrib, PyVal.isDict, List.filter_cons] <;>
        simpa [workAreasOfList] using ih

theorem trainAreas_filter_dicts (ts : List PyVal) :
    trainAreasOfList (ts.filter PyVal.isDict) = trainAreasOfList ts := by
  induction ts with
  | nil => rfl
  | cons t ts ih =>
      cases t <;> simp [trainAreasOfList, trainContrib, PyVal.isDict, List.filter_cons] <;>
        simpa [trainAreasOfList] using ih

theorem eduCourses_filter_dicts (cs : List PyVal) :
    eduCourses (PyVal.list (cs.filter PyVal.isDict)) = eduCourses (PyVal.list cs) := by
  induction cs with
  | nil => rfl
  | cons c cs ih =>
      cases c <;> simp [eduCourses, PyVal.isDict, List.filter_cons] <;>
        simpa [eduCourses] using ih

/-- C4: the analyzer never fails on a mapping-shaped record (the embedding is
a total function), and every malformed nested value contributes nothing: a
non-dict `educational_background`, a non-list `work_experience` or
`learning_development` leaves the corresponding bucket empty, and non-dict
entries inside the work, training and education lists are skipped without
affecting the rest. -/
theorem analyzer_skips_malformed :
    ∀ pds_data : List (String × PyVal),
      ((dget pds_data "educational_background" (PyVal.dict [])).isDict = false →
          (analyze_pds_background pds_data).education_fields = []) ∧
      ((dget pds_data "work_experience" (PyVal.list [])).isList = false →
          (analyze_pds_background pds_data).work_experience_areas = []) ∧
      ((dget pds_data "learning_development" (PyVal.list [])).isList = false →
          (analyze_pds_background pds_data).training_areas = []) ∧
      (∀ es, dget pds_data "work_experience" (PyVal.list []) = PyVal.list es →
          (analyze_pds_background pds_data).work_experience_areas
            = workAreasOfList (es.filter PyVal.isDict)) ∧
      (∀ ts, dget pds_data "learning_development" (PyVal.list []) = PyVal.list ts →
          (analyze_pds_background pds_data).training_areas
            = trainAreasOfList (ts.filter PyVal.isDict)) ∧
      (∀ cs : List PyVal, eduCourses (PyVal.list cs) = eduCourses (PyVal.list (cs.filter PyVal.isDict))) := by
  intro pds
  refine ⟨?_, ?_, ?_, ?_, ?_, ?_⟩
  · intro h
    simp only [analyze_pds_background, educationFields]
    cases hv : dget pds "educational_background" (PyVal.dict []) <;>
      simp_all [PyVal.isDict]
  · intro h
    simp only [analyze_pds_background, workExperienceAreas]
    cases hv : dget pds "work_experience" (PyVal.list []) <;>
      simp_all [PyVal.isList]
  · intro h
    simp only [analyze_pds_background, trainingAreas]
    cases hv : dget pds "learning_development" (PyVal.list []) <;>
      simp_all [PyVal.isList]
  · intro es h
    simp [analyze_pds_background, workExperienceAreas, h, workAreas_filter_dicts]
  · intro ts h
    simp [analyze_pds_background, trainingAreas, h, trainAreas_filter_dicts]
  · intro cs
    exact (eduCourses_filter_dicts cs).symm

/-- Witness for C4 at a record whose three sections all have the wrong
type. -/
theorem analyzer_skips_malformed_witness :
    (analyze_pds_background
        [("educational_background", PyVal.str "oops"),
         ("work_experience", PyVal.int 3),
         ("learning_development", PyVal.bool true)]).education_fields = [] ∧
    (analyze_pds_background
        [("educational_background", PyVal.str "oops"),
         ("work_experience", PyVal.int 3),
         ("learning_development", PyVal.bool true)]).work_experience_areas = [] ∧
    (analyze_pds_background
        [("educational_background", PyVal.str "oops"),
         ("work_experience", PyVal.int 3),
         ("learning_development", PyVal.bool true)]).training_areas = [] :=
  ⟨(analyzer_skips_malformed
      [("educational_background", PyVal.str "oops"),
       ("work_experience", PyVal.int 3),
       ("learning_development", PyVal.bool true)]).1 (by decide),
   (analyzer_skips_malformed
      [("educational_background", PyVal.str "oops"),
       ("work_experience", PyVal.int 3),
       ("learning_development", PyVal.bool true)]).2.1 (by decide),
   (analyzer_skips_malformed
      [("educational_background", PyVal.str "oops"),
       ("work_experience", PyVal.int 3),
       ("learning_development", PyVal.bool true)]).2.2.1 (by decide)⟩

theorem dlookup_append (pre rest : List (String × PyVal)) (key : String) :
    dlookup (pre ++ rest) key =
      (match dlookup pre key with
       | some v => some v
       | Option.none => dlookup rest key) := by
  induction pre with
  | nil => simp [dlookup]
  | cons kv pre ih =>
      obtain ⟨k, v⟩ := kv
      by_cases h : k = key <;> simp [dlookup, h, ih]

theorem eduCourses_singleton (d : List (String × PyVal)) :
    eduCourses (PyVal.list [PyVal.dict d]) = eduCourses (PyVal.dict d) := by
  simp [eduCourses]

theorem eduLevelContrib_dict_vs_list (pre post : List (String × PyVal))
    (lvl key : String) (d : List (String × PyVal)) :
    eduLevelContrib (pre ++ (lvl, PyVal.dict d) :: post) key
      = eduLevelContrib (pre ++ (lvl, PyVal.list [PyVal.dict d]) :: post) key := by
  unfold eduLevelContrib
  rw [dlookup_append, dlookup_append]
  cases hp : dlookup pre key with
  | some v => simp
  | none =>
      by_cases hk : lvl = key
      · simp only [dlookup, hk, if_pos rfl]
        cases d with
        | nil => simp [truthy, eduCourses, dget, dlookup]
        | cons kv tl => simp [truthy, eduCourses_singleton]
      · simp [dlookup, hk]

/-- C2: the education bucket visits each of the three levels in source order
and collects the `course` of every entry; for every level the single-object
form `{...}` and the list-of-objects form `[{...}]` of an entry yield exactly
the same collected courses, whatever the rest of the `educational_background`
dict contains. -/
theorem education_entry_forms_uniform :
    (∀ (pre post : List (String × PyVal)) (lvl : String) (d : List (String × PyVal)),
        (analyze_pds_background
            [("educational_background", PyVal.dict (pre ++ (lvl, PyVal.dict d) :: post))]).education_fields
          = (analyze_pds_background
              [("educational_background",
                PyVal.dict (pre ++ (lvl, PyVal.list [PyVal.dict d]) :: post))]).education_fields) ∧
    (analyze_pds_background
        [("educational_background", PyVal.dict
            [("college", PyVal.dict [("course", PyVal.str "BS Computer Science")]),
             ("graduate_studies", PyVal.dict [("course", PyVal.str "MS HRM")]),
             ("post_graduate", PyVal.dict [("course", PyVal.str "PhD Education")])])]).education_fields
      = [PyVal.str "BS Computer Science", PyVal.str "MS HRM", PyVal.str "PhD Education"] := by
  constructor
  · intro pre post lvl d
    have h : ∀ key, eduLevelContrib (pre ++ (lvl, PyVal.dict d) :: post) key
        = eduLevelContrib (pre ++ (lvl, PyVal.list [PyVal.dict d]) :: post) key :=
      fun key => eduLevelContrib_dict_vs_list pre post lvl key d
    simp [analyze_pds_background, educationFields, dget, dlookup, eduLevels, h]
  · rfl

theorem pyStrEq_false_of_not_truthy {v : PyVal} {s : String} (hs : s ≠ "")
    (h : truthy v = false) : pyStrEq v s = false := by
  cases v <;> simp_all [pyStrEq, truthy]
  rintro rfl
  simp_all

theorem countP_strEq_if (s : String) (hs : s ≠ "") (v : PyVal) :
    (if truthy v = true then [v] else []).countP (fun x => pyStrEq x s)
      = if pyStrEq v s = true then 1 else 0 := by
  by_cases ht : truthy v = true
  · simp [ht, List.countP_cons]
  · simp [ht, pyStrEq_false_of_not_truthy hs (Bool.eq_false_iff.mpr ht)]

theorem expContrib_countP (s : String) (hs : s ≠ "") (e : PyVal) :
    (expContrib e).countP (fun v => pyStrEq v s)
      = ((if entryFieldIs "position_title" s e = true then 1 else 0)
          + (if entryFieldIs "department_office" s e = true then 1 else 0)) := by
  cases e <;> simp [expContrib, entryFieldIs]
  case dict d =>
    rw [countP_strEq_if s hs, countP_strEq_if s hs]

theorem trainContrib_countP (s : String) (hs : s ≠ "") (e : PyVal) :
    (trainContrib e).countP (fun v => pyStrEq v s)
      = (if entryFieldIs "title" s e = true then 1 else 0) := by
  cases e <;> simp [trainContrib, entryFieldIs]
  case dict d =>
    rw [countP_strEq_if s hs]

theorem workAreas_countP (s : String) (hs : s ≠ "") (es : List PyVal) :
    (workAreasOfList es).countP (fun v => pyStrEq v s)
      = es.countP (entryFieldIs "position_title" s)
        + es.countP (entryFieldIs "department_office" s) := by
  induction es with
  | nil => rfl
  | cons e es ih =>
      have ih' : (es.flatMap expContrib).countP (fun v => pyStrEq v s)
          = es.countP (entryFieldIs "position_title" s)
            + es.countP (entryFieldIs "department_office" s) := ih
      simp only [workAreasOfList, List.flatMap_cons, List.countP_append, List.countP_cons]
      rw [ih', expContrib_countP s hs e]
      ring

theorem trainAreas_countP (s : String) (hs : s ≠ "") (ts : List PyVal) :
    (trainAreasOfList ts).countP (fun v => pyStrEq v s)
      = ts.countP (entryFieldIs "title" s) := by
  induction ts with
  | nil => rfl
  | cons t ts ih =>
      have ih' : (ts.flatMap trainContrib).countP (fun v => pyStrEq v s)
          = ts.countP (entryFieldIs "title" s) := ih
      simp only [trainAreasOfList, List.flatMap_cons, List.countP_append, List.countP_cons]
      rw [ih', trainContrib_countP s hs t]
      ring

/-- C5: buckets preserve the source record's insertion order and keep
duplicates.  Splitting a source collection splits the bucket at the matching
point (the analyzer appends each entry's contribution in encounter order,
never reordering), and a text occurring in n work-experience entries as
`position_title` and in m entries as `department_office` occurs exactly n+m
times in `work_experience_areas`; likewise a title occurring in n training
entries occurs exactly n times in `training_areas` — no deduplication
happens. -/
theorem analyzer_order_and_duplicates :
    (∀ es₁ es₂ : List PyVal,
        workAreasOfList (es₁ ++ es₂) = workAreasOfList es₁ ++ workAreasOfList es₂) ∧
    (∀ ts₁ ts₂ : List PyVal,
        trainAreasOfList (ts₁ ++ ts₂) = trainAreasOfList ts₁ ++ trainAreasOfList ts₂) ∧
    (∀ cs₁ cs₂ : List PyVal,
        eduCourses (PyVal.list (cs₁ ++ cs₂))
          = eduCourses (PyVal.list cs₁) ++ eduCourses (PyVal.list cs₂)) ∧
    (∀ (pds_data : List (String × PyVal)) (es : List PyVal) (s : String),
        dget pds_data "work_experience" (PyVal.list []) = PyVal.list es → s ≠ "" →
        ((analyze_pds_background pds_data).work_experience_areas).countP (fun v => pyStrEq v s)
          = es.countP (entryFieldIs "position_title" s)
            + es.countP (entryFieldIs "department_office" s)) ∧
    (∀ (pds_data : List (String × PyVal)) (ts : List PyVal) (s : String),
        dget pds_data "learning_development" (PyVal.list []) = PyVal.list ts → s ≠ "" →
        ((analyze_pds_background pds_data).training_areas).countP (fun v => pyStrEq v s)
          = ts.countP (entryFieldIs "title" s)) := by
  refine ⟨?_, ?_, ?_, ?_, ?_⟩
  · intro es₁ es₂
    simp [workAreasOfList, List.flatMap_append]
  · intro ts₁ ts₂
    simp [trainAreasOfList, List.flatMap_append]
  · intro cs₁ cs₂
    simp [eduCourses, List.flatMap_append]
  · intro pds es s h hs
    have hb : (analyze_pds_background pds).work_experience_areas = workAreasOfList es := by
      simp [analyze_pds_background, workExperienceAreas, h]
    rw [hb, workAreas_countP s hs]
  · intro pds ts s h hs
    have hb : (analyze_pds_background pds).training_areas = trainAreasOfList ts := by
      simp [analyze_pds_background, trainingAreas, h]
    rw [hb, trainAreas_countP s hs]

/-- Witness for C5: a training title appearing in two source entries is
counted twice in the bucket. -/
theorem analyzer_order_and_duplicates_witness :
    ((analyze_pds_background
        [("learning_development", PyVal.list
            [PyVal.dict [("title", PyVal.str "Records Management")],
             PyVal.dict [("title", PyVal.str "Records Management")]])]).training_areas).countP
        (fun v => pyStrEq v "Records Management")
      = ([PyVal.dict [("title", PyVal.str "Records Management")],
          PyVal.dict [("title", PyVal.str "Records Management")]] : List PyVal).countP
          (entryFieldIs "title" "Records Management") :=
  analyzer_order_and_duplicates.2.2.2.2
    [("learning_development", PyVal.list
        [PyVal.dict [("title", PyVal.str "Records Management")],
         PyVal.dict [("title", PyVal.str "Records Management")]])]
    [PyVal.dict [("title", PyVal.str "Records Management")],
     PyVal.dict [("title", PyVal.str "Records Management")]]
    "Records Management" rfl (by decide)

/-- C6 (amended): date-like fragments are rejected for every field kind, and
pure numeric or numeric-with-decimal fragments are rejected for every field
kind except the one carve-out the specification's own test table requires: a
phone-shaped all-digit string for the `reference_data` kind.  The claim's
concrete eligibility examples all hold: `2015-06-01 00:00:00`, `85.50`,
`From`, `To` and `Present` are rejected while `Career Service Eligibility`,
`CSE Professional` and `Tourism Professional Certification` are accepted. -/
theorem validator_rejects_dates_and_ratings :
    (∀ kind text : String,
        (isDateLike (normFrag text) = true ∨
          (isNumericText (normFrag text) = true ∧
            ¬(kind = "reference_data" ∧ isPhoneShape (normFrag text) = true))) →
        validate kind text = false) ∧
    validate "eligibility" "2015-06-01 00:00:00" = false ∧
    validate "eligibility" "85.50" = false ∧
    validate "eligibility" "From" = false ∧
    validate "eligibility" "To" = false ∧
    validate "eligibility" "Present" = false ∧
    validate "eligibility" "Career Service Eligibility" = true ∧
    validate "eligibility" "CSE Professional" = true ∧
    validate "eligibility" "Tourism Professional Certification" = true := by
  refine ⟨?_, by decide, by decide, by decide, by decide, by decide, by decide, by decide,
    by decide⟩
  intro kind text h
  unfold validate
  rcases h with hd | ⟨hn, hk⟩
  · rw [if_pos hd]
  · by_cases hdate : isDateLike (normFrag text) = true
    · rw [if_pos hdate]
    · rw [if_neg hdate, if_pos ⟨hn, hk⟩]

/-- Witness for C6's amended theorem: the rating `85.50` is rejected for an
arbitrary kind through the general numeric rule. -/
theorem validator_rejects_dates_and_ratings_witness :
    validate "training" "85.50" = false :=
  validator_rejects_dates_and_ratings.1 "training" "85.50"
    (Or.inr ⟨by decide, by decide⟩)

/-- Counterexample to C6 as stated: `09123456789` is a pure numeric string,
yet `validate` accepts it for the `reference_data` kind — as the source test
`test_extraction_validation` and the spec's own reference-data test table
demand — so the rule "numeric fragments are rejected for every field kind"
admits exactly this exception. -/
theorem validator_phone_accepted_counterexample :
    isNumericText (normFrag "09123456789") = true ∧
    validate "reference_data" "09123456789" = true :=
  ⟨by decide, by decide⟩

/-- C7: reference-name validation accepts honorific-bearing person names and
rejects pure numbers and government-ID label shapes; reference-data validation
rejects bare agency abbreviations while accepting location-plus-code strings
and local phone-number shapes.  The last conjunct states the pure-number
rejection for `reference_name` in general. -/
theorem validator_reference_examples :
    validate "reference_name" "Prof. Norilyn Dela Cruz" = true ∧
    validate "reference_name" "SSS: 123456789" = false ∧
    validate "reference_name" "Government Issued ID" = false ∧
    validate "reference_name" "123456" = false ∧
    validate "reference_data" "Zamboanga City | 4342" = true ∧
    validate "reference_data" "SSS" = false ∧
    validate "reference_data" "09123456789" = true ∧
    (∀ text : String, isNumericText (normFrag text) = true →
        validate "reference_name" text = false) := by
  refine ⟨by decide, by decide, by decide, by decide, by decide, by decide, by decide, ?_⟩
  intro text h
  unfold validate
  by_cases hdate : isDateLike (normFrag text) = true
  · rw [if_pos hdate]
  · rw [if_neg hdate, if_pos ⟨h, fun hc => absurd hc.1 (by decide)⟩]

/-- Witness for C7's general pure-number conjunct at a concrete input. -/
theorem validator_reference_examples_witness :
    validate "reference_name" "271828" = false :=
  validator_reference_examples.2.2.2.2.2.2.2 "271828" (by decide)

theorem categoryScore_nonneg (req : String) (bucket : List String) :
    0 ≤ categoryScore req bucket := by
  unfold categoryScore
  split
  · norm_num
  · positivity

theorem categoryScore_le_hundred (req : String) (bucket : List String) :
    categoryScore req bucket ≤ 100 := by
  unfold categoryScore
  split
  · norm_num
  · next h =>
      have hlen : 0 < (reqKeywords req).length :=
        List.length_pos.mpr (by simpa using h)
      have hq : (0 : ℚ) < ((reqKeywords req).length : ℚ) := by exact_mod_cast hlen
      have hc : (keywordHits (reqKeywords req) bucket : ℚ)
          ≤ ((reqKeywords req).length : ℚ) := by
        exact_mod_cast List.countP_le_length _
      rw [div_le_iff₀ hq]
      linarith

theorem round1_nonneg {q : ℚ} (h : 0 ≤ q) : 0 ≤ round1 q := by
  unfold round1
  have h1 : (0 : ℤ) ≤ round (10 * q) := by
    rw [round_eq]
    exact Int.floor_nonneg.mpr (by linarith)
  have h2 : (0 : ℚ) ≤ ((round (10 * q) : ℤ) : ℚ) := by exact_mod_cast h1
  exact div_nonneg h2 (by norm_num)

theorem round1_le_hundred {q : ℚ} (h : q ≤ 100) : round1 q ≤ 100 := by
  unfold round1
  have h1 : round (10 * q) ≤ 1000 := by
    rw [round_eq]
    have h2 : (10 * q + 1 / 2 : ℚ) < ((1001 : ℤ) : ℚ) := by push_cast; linarith
    have := Int.floor_lt.mpr h2
    omega
  have h2 : ((round (10 * q) : ℤ) : ℚ) ≤ 1000 := by exact_mod_cast h1
  rw [div_le_iff₀ (by norm_num)]
  linarith

theorem abs_round1_sub (q : ℚ) : |round1 q - q| ≤ 1 / 20 := by
  have h := abs_sub_round (10 * q)
  have heq : round1 q - q = -((10 * q - ((round (10 * q) : ℤ) : ℚ)) / 10) := by
    unfold round1; ring
  rw [heq, abs_neg, abs_div, abs_of_pos (show (0 : ℚ) < 10 by norm_num)]
  linarith

theorem weighted_round_bound (e x t g : ℚ) :
    |round1 (wEdu * e + wExp * x + wTrn * t + wElg * g)
        - (wEdu * round1 e + wExp * round1 x + wTrn * round1 t + wElg * round1 g)| ≤ 1 / 10 := by
  have h0 := abs_round1_sub (wEdu * e + wExp * x + wTrn * t + wElg * g)
  have h1 := abs_round1_sub e
  have h2 := abs_round1_sub x
  have h3 := abs_round1_sub t
  have h4 := abs_round1_sub g
  rw [abs_le] at h0 h1 h2 h3 h4
  rw [abs_le]
  unfold wEdu wExp wTrn wElg at *
  constructor <;> nlinarith [h0.1, h0.2, h1.1, h1.2, h2.1, h2.2, h3.1, h3.2, h4.1, h4.2]

/-- C8: for every candidate view and job posting, each of the four reported
sub-scores lies in [0, 100], the reported total lies in [0, 100], the four
fixed weights sum to 1, and the reported total equals the weighted sum of the
four reported sub-scores to within the tolerance forced by rounding every
reported value to one decimal place. -/
theorem assessment_scores_bounded_and_weighted :
    ∀ (c : CandidateView) (job : JobRow),
      (0 ≤ (assess_candidate_for_lspu_job c job).education_score ∧
        (assess_candidate_for_lspu_job c job).education_score ≤ 100) ∧
      (0 ≤ (assess_candidate_for_lspu_job c job).experience_score ∧
        (assess_candidate_for_lspu_job c job).experience_score ≤ 100) ∧
      (0 ≤ (assess_candidate_for_lspu_job c job).training_score ∧
        (assess_candidate_for_lspu_job c job).training_score ≤ 100) ∧
      (0 ≤ (assess_candidate_for_lspu_job c job).eligibility_score ∧
        (assess_candidate_for_lspu_job c job).eligibility_score ≤ 100) ∧
      (0 ≤ (assess_candidate_for_lspu_job c job).total_score ∧
        (assess_candidate_for_lspu_job c job).total_score ≤ 100) ∧
      wEdu + wExp + wTrn + wElg = 1 ∧
      |(assess_candidate_for_lspu_job c job).total_score
          - (wEdu * (assess_candidate_for_lspu_job c job).education_score
            + wExp * (assess_candidate_for_lspu_job c job).experience_score
            + wTrn * (assess_candidate_for_lspu_job c job).training_score
            + wElg * (assess_candidate_for_lspu_job c job).eligibility_score)| ≤ 1 / 10 := by
  intro c job
  have he1 := categoryScore_nonneg job.education_requirements c.education_fields
  have he2 := categoryScore_le_hundred job.education_requirements c.education_fields
  have hx1 := categoryScore_nonneg job.experience_requirements c.work_experience_areas
  have hx2 := categoryScore_le_hundred job.experience_requirements c.work_experience_areas
  have ht1 := categoryScore_nonneg job.training_requirements c.training_areas
  have ht2 := categoryScore_le_hundred job.training_requirements c.training_areas
  have hg1 := categoryScore_nonneg job.eligibility_requirements c.civil_service_eligibility
  have hg2 := categoryScore_le_hundred job.eligibility_requirements c.civil_service_eligibility
  refine ⟨⟨round1_nonneg he1, round1_le_hundred he2⟩,
    ⟨round1_nonneg hx1, round1_le_hundred hx2⟩,
    ⟨round1_nonneg ht1, round1_le_hundred ht2⟩,
    ⟨round1_nonneg hg1, round1_le_hundred hg2⟩,
    ⟨round1_nonneg ?_, round1_le_hundred ?_⟩,
    by unfold wEdu wExp wTrn wElg; norm_num,
    weighted_round_bound _ _ _ _⟩
  · unfold wEdu wExp wTrn wElg
    nlinarith
  · unfold wEdu wExp wTrn wElg
    nlinarith

end NewResu
